import Mathlib

/-!
Verification of `src/mvnanimate/plugin_mvnanimate.py` (class `DeviceMVNAnimate`).

Shallow embedding conventions:
* Time values (`datetime.datetime.now()` results and differences) are integers in
  milliseconds, so the thresholds `ping_interval = 1.0 s` and
  `disconnect_timeout = 3.0 s` become `1000` and `3000`; the comparisons
  `activity_delta.total_seconds() > 3.0` etc. are order-preserving under this map.
* Python field mutations become explicit state passing over `DeviceState`.
* A Python function that can raise returns its raised exception in an
  `Option PyError` component; mutations performed before the raise persist in
  the returned state, exactly as in Python.
* `xml.etree.ElementTree` is external library code: an `Element` is modelled by
  the inductive `Xml`, `tostring` by a direct serializer, and `fromstring`
  applied to a received datagram is modelled by the datagram's parse outcome
  (`Datagram.parsed x` when `fromstring` succeeds with element `x`,
  `Datagram.malformed raw` when it raises `ParseError`).
-/

/-- Modelled from the spec: `DeviceStatus` of `switchboard.devices.device_base`
(not under `src/`); only the states the plugin touches are needed:
`DISCONNECTED`, `CONNECTING`, `READY`. -/
inductive DeviceStatus where
  | disconnected
  | connecting
  | ready
deriving Repr, DecidableEq

/-- Python exceptions that the plugin's code paths can raise. -/
inductive PyError where
  | nameError (name : String)      -- reference to an undefined variable
  | connectionTimeout              -- `raise Exception("Connection timeout")`
  | transportError                 -- socket-level send/receive failure
deriving Repr, DecidableEq

/-- Observable effects toward the host / logger. -/
inductive Event where
  | logError (msg : String)
  | logWarning (msg : String)
  | deviceClientDisconnected       -- `signal_device_client_disconnected.emit(self)`
  | recordStartConfirm (timecode : String)                      -- `record_start_confirm`
  | recordStopConfirm (timecode : String) (paths : Option (List String))  -- `record_stop_confirm`
deriving Repr, DecidableEq

/-- An `xml.etree.ElementTree.Element`: tag, attributes in insertion order,
child elements in insertion order. -/
inductive Xml where
  | elem (tag : String) (attribs : List (String × String)) (children : List Xml)

/-- Tag of an element (`Element.tag`). -/
def Xml.tag : Xml → String
  | .elem t _ _ => t

/-- Attributes of an element (`Element.attrib`). -/
def Xml.attribs : Xml → List (String × String)
  | .elem _ a _ => a

/-- Children of an element (list of sub-elements). -/
def Xml.children : Xml → List Xml
  | .elem _ _ c => c

/-- Serialization of one attribute as ` key="value"`. -/
def attrString (kv : String × String) : String :=
  " " ++ kv.1 ++ "=\x22" ++ kv.2 ++ "\x22"

mutual

/-- `xml.etree.ElementTree.tostring`: serializes a single element; an element
with no children is self-closing, as ElementTree produces. -/
def tostring : Xml → String
  | .elem t attrs children =>
    "<" ++ t ++ String.join (attrs.map attrString) ++
      (match children with
       | [] => " />"
       | _ => ">" ++ tostringList children ++ "</" ++ t ++ ">")

/-- Serialization of a list of child elements in order. -/
def tostringList : List Xml → String
  | [] => ""
  | c :: cs => tostring c ++ tostringList cs

end

/-- A received datagram, represented by the outcome of the external
`fromstring` parser on its bytes: `parsed x` when the bytes are a single
well-formed element `x`; `malformed raw` when `fromstring` raises `ParseError`
(truncated datagram, garbage, multiple roots), with `raw` the printable form of
the bytes used in the error log. -/
inductive Datagram where
  | parsed (x : Xml)
  | malformed (raw : String)

/-- State of a `DeviceMVNAnimate` instance: the fields of `__init__` that the
verified code paths read or write, plus `threads_started`, which counts how
many `mvn_connection` threads have been launched (observable effect of
`Thread(...).start()`). -/
structure DeviceState where
  /-- `self.message_queue` — a `deque`, head of the list = left end of the deque. -/
  message_queue : List String
  /-- `self.socket` — `none` models Python `None`; `some h` a held socket handle. -/
  socket : Option Nat
  /-- `self.close_socket`. -/
  close_socket : Bool
  /-- `self.last_activity` (milliseconds). -/
  last_activity : Int
  /-- `self.awaiting_echo_response`. -/
  awaiting_echo_response : Bool
  /-- `self.status` (from the `Device` base class). -/
  status : DeviceStatus
  /-- `self.trigger_start`. -/
  trigger_start : Bool
  /-- `self.trigger_stop`. -/
  trigger_stop : Bool
  /-- `self._slate`. -/
  slate : String
  /-- `self._take`. -/
  take : Int
  /-- Number of `mvn_connection` threads started so far. -/
  threads_started : Nat
deriving Repr, DecidableEq

/-- `send_string_to_mvn(self, data)`: `self.message_queue.appendleft(data)`. -/
def send_string_to_mvn (st : DeviceState) (data : String) : DeviceState :=
  { st with message_queue := data :: st.message_queue }

/-- `send_request_to_mvn(self, message_type, data)`: builds
`Element(message_type)` with the given attributes set in order, serializes it
with `tostring`, and hands it to `send_string_to_mvn`. -/
def send_request_to_mvn (st : DeviceState) (message_type : String)
    (data : List (String × String)) : DeviceState :=
  send_string_to_mvn st (tostring (Xml.elem message_type data []))

/-- The wire form of an identify probe, `tostring(Element("IdentifyReq"))`. -/
def identifyReqMsg : String := tostring (Xml.elem "IdentifyReq" [] [])

/-- `send_identify_request(self)`: returns immediately if
`self.awaiting_echo_response` is set; otherwise sets the flag and enqueues an
`IdentifyReq` message. -/
def send_identify_request (st : DeviceState) : DeviceState :=
  if st.awaiting_echo_response then st
  else send_request_to_mvn { st with awaiting_echo_response := true } "IdentifyReq" []

/-- `is_connected` property: `self.socket is not None`. -/
def is_connected (st : DeviceState) : Bool :=
  st.socket.isSome

/-- Modelled from the spec: `Device.is_disconnected` of the base class (not
under `src/`): true iff the device status is DISCONNECTED. -/
def is_disconnected (st : DeviceState) : Bool :=
  st.status = DeviceStatus.disconnected

/-- `connect_listener(self)`: unconditionally clears `close_socket`, creates
and binds a fresh UDP socket (modelled by the fresh handle `newSocket`),
resets `last_activity` to the current time, starts a new `mvn_connection`
thread, clears `awaiting_echo_response`, and calls `send_identify_request`.
There is no already-connected guard in the source. -/
def connect_listener (st : DeviceState) (newSocket : Nat) (now : Int) : DeviceState :=
  send_identify_request
    { st with
      close_socket := false
      socket := some newSocket
      last_activity := now
      threads_started := st.threads_started + 1
      awaiting_echo_response := false }

/-- `timecode(self)`: returns the constant string. -/
def timecode : String := "00:00:00:00"

/-- `on_mvn_identify_response(self, response)`: clears the awaiting flag and
sets the device status to READY. -/
def on_mvn_identify_response (st : DeviceState) (response : Xml) :
    DeviceState × List Event :=
  ({ st with awaiting_echo_response := false, status := DeviceStatus.ready },
   [Event.logWarning ("MVN identify response: " ++ tostring response)])

/-- `on_mvn_recording_started(self, response)`: calls
`self.record_start_confirm(self.timecode())`. -/
def on_mvn_recording_started (st : DeviceState) (_response : Xml) :
    DeviceState × List Event :=
  (st, [Event.recordStartConfirm timecode])

/-- `on_mvn_recording_stopped(self, response)`: calls
`self.record_stop_confirm(self.timecode(), paths=None)`. -/
def on_mvn_recording_stopped (st : DeviceState) (_response : Xml) :
    DeviceState × List Event :=
  (st, [Event.recordStopConfirm timecode none])

/-- `on_mvn_record_take_name_set(self, response)`: log-only. -/
def on_mvn_record_take_name_set (st : DeviceState) (response : Xml) :
    DeviceState × List Event :=
  (st, [Event.logWarning ("MVN set take to " ++ tostring response)])

/-- Dispatch through `self.command_response_callbacks`: `some` result when the
tag is one of the four registered keys, `none` when the lookup misses. -/
def run_command_response_callback (st : DeviceState) (tag : String) (response : Xml) :
    Option (DeviceState × List Event) :=
  if tag = "IdentifyAck" then some (on_mvn_identify_response st response)
  else if tag = "StartRecordingAck" then some (on_mvn_recording_started st response)
  else if tag = "StopRecordingAck" then some (on_mvn_recording_stopped st response)
  else if tag = "CaptureNameAck" then some (on_mvn_record_take_name_set st response)
  else none

/-- `process_message(self, data)`: first sets `self.last_activity` to the
current time; then parses. On `ParseError` it logs and returns. On a
recognized tag it invokes the registered callback. On an unrecognized tag the
source evaluates the f-string `f"... {cmd_name} request"`, but `cmd_name` is
not defined anywhere in the function, so this branch raises `NameError`
before `LOGGER.error` runs (the returned `Option PyError` is the raised
exception; state mutations made before the raise persist). -/
def process_message (st : DeviceState) (now : Int) (data : Datagram) :
    DeviceState × List Event × Option PyError :=
  let st1 := { st with last_activity := now }
  match data with
  | .malformed raw =>
      (st1, [Event.logError ("Could not parse MVN message " ++ raw)], none)
  | .parsed msg_elem =>
      match run_command_response_callback st1 msg_elem.tag msg_elem with
      | some r => (r.1, r.2, none)
      | none => (st1, [], some (PyError.nameError "cmd_name"))

/-- `set_take(self, take_name, take_num)`: assigns `self._slate` and
`self._take`, builds `Element("CaptureName")` and `Element("Name")`, then
executes `state_elem.set("VALUE", value)` — both `state_elem` and `value` are
undefined names, so a `NameError` is raised there; the CaptureName message is
never completed and nothing is enqueued. The two field assignments made
before the raise persist. -/
def set_take (st : DeviceState) (take_name : String) (take_num : Int) :
    DeviceState × Option PyError :=
  ({ st with slate := take_name, take := take_num },
   some (PyError.nameError "state_elem"))

/-- `record_start(self, slate, take, description)`: returns without effect if
the device is disconnected or `trigger_start` is off; otherwise sends a
`StartRecordingReq` whose attributes are `SessionName = slate` and
`Description = description`. The `take` argument is unused (the `set_take`
call is commented out in the source). -/
def record_start (st : DeviceState) (slate : String) (_take : Int)
    (description : String) : DeviceState :=
  if is_disconnected st || !st.trigger_start then st
  else send_request_to_mvn st "StartRecordingReq"
    [("SessionName", slate), ("Description", description)]

/-- `record_stop(self)`: returns without effect if the device is disconnected
or `trigger_stop` is off; otherwise sends a `StopRecordingReq`. -/
def record_stop (st : DeviceState) : DeviceState :=
  if is_disconnected st || !st.trigger_stop then st
  else send_request_to_mvn st "StopRecordingReq" []

/-! ## The outbound queue's drain operation and push/pop sequences

`send_string_to_mvn` pushes with `deque.appendleft` (at the left end);
the session loop drains with `self.message_queue.pop()`, which removes and
returns the element at the RIGHT end of the deque — the oldest element still
queued. -/

/-- `deque.pop()` on the message queue (head of the list = left end of the
deque): removes and returns the rightmost element; `none` on an empty deque
(the loop guards the call with `if len(self.message_queue)`). -/
def deque_pop (q : List String) : Option (String × List String) :=
  match q.getLast? with
  | none => none
  | some m => some (m, q.dropLast)

/-- An operation on the outbound queue: a push (`send_string_to_mvn`) or a pop
(the session loop's drain step). -/
inductive QOp where
  | push (m : String)
  | pop
deriving Repr, DecidableEq

/-- Runs a sequence of queue operations on a device state: `push m` is
`send_string_to_mvn`, `pop` is the loop's `self.message_queue.pop()` (skipped
on an empty queue, as the loop's length guard does). Returns the final state
and the list of popped messages in pop order. -/
def queue_run : DeviceState → List QOp → DeviceState × List String
  | st, [] => (st, [])
  | st, QOp.push m :: ops => queue_run (send_string_to_mvn st m) ops
  | st, QOp.pop :: ops =>
    match deque_pop st.message_queue with
    | none => queue_run st ops
    | some (m, q) =>
      let r := queue_run { st with message_queue := q } ops
      (r.1, m :: r.2)

/-- Reference first-in-first-out queue on plain lists (head = front of the
queue = next element to be popped): push appends at the back, pop removes the
front; used to state what order the deque's `appendleft`/`pop` pair realizes. -/
def fifo_run : List String → List QOp → List String × List String
  | pend, [] => (pend, [])
  | pend, QOp.push m :: ops => fifo_run (pend ++ [m]) ops
  | pend, QOp.pop :: ops =>
    match pend with
    | [] => fifo_run [] ops
    | m :: rest =>
      let r := fifo_run rest ops
      (r.1, m :: r.2)

/-- The messages pushed by a sequence of operations, in push order. -/
def pushesOf : List QOp → List String
  | [] => []
  | QOp.push m :: ops => m :: pushesOf ops
  | QOp.pop :: ops => pushesOf ops

/-- The number of pop operations in a sequence. -/
def numPops : List QOp → Nat
  | [] => 0
  | QOp.push _ :: ops => numPops ops
  | QOp.pop :: ops => numPops ops + 1

/-- Holds when, starting from the given pending contents, no pop in the
sequence ever meets an empty queue. -/
def valid_pops : List String → List QOp → Bool
  | _, [] => true
  | pend, QOp.push m :: ops => valid_pops (pend ++ [m]) ops
  | pend, QOp.pop :: ops =>
    match pend with
    | [] => false
    | _ :: rest => valid_pops rest ops

/-! ## The session loop -/

/-- `ping_interval = 1.0` seconds, in milliseconds. -/
def ping_interval : Int := 1000

/-- `disconnect_timeout = 3.0` seconds, in milliseconds. -/
def disconnect_timeout : Int := 3000

/-- Lines 160–165 of the loop body: compute `activity_delta`, raise
`Exception("Connection timeout")` when it exceeds `disconnect_timeout`,
otherwise call `send_identify_request` when it exceeds `ping_interval`. -/
def activity_check (st : DeviceState) (now : Int) : DeviceState × Option PyError :=
  let delta := now - st.last_activity
  if delta > disconnect_timeout then (st, some PyError.connectionTimeout)
  else if delta > ping_interval then (send_identify_request st, none)
  else (st, none)

/-- How one iteration of the `while self.is_connected` loop ends. -/
inductive IterResult where
  /-- The body completed; the loop proceeds to the next iteration. -/
  | nextIter
  /-- The shutdown branch ran: socket shut down, closed and cleared, `break`. -/
  | cleanExit
  /-- An exception reached the `except` clause: host notified, `break`. -/
  | errorExit (e : PyError)
  /-- The `while self.is_connected` condition was false; the loop ends. -/
  | whileFalse
deriving Repr, DecidableEq

/-- Result of one loop iteration: the state after it, the events it emitted,
and how it ended. -/
structure IterOut where
  state : DeviceState
  events : List Event
  result : IterResult
deriving Repr, DecidableEq

/-- Environment of one loop iteration: whether `sendto` raises, the datagrams
received in the 200 ms `select` window each with the `datetime.now()` at which
`process_message` handles it, and the `datetime.now()` at the
`activity_delta` computation. -/
structure IterInput where
  sendError : Option PyError
  recvs : List (Datagram × Int)
  checkTime : Int

/-- Processes the datagrams read from the socket in order through
`process_message`, stopping at the first raised exception, which propagates. -/
def process_received : DeviceState → List (Datagram × Int) →
    DeviceState × List Event × Option PyError
  | st, [] => (st, [], none)
  | st, (d, t) :: rest =>
    match process_message st t d with
    | (st1, evs, some e) => (st1, evs, some e)
    | (st1, evs, none) =>
      let r := process_received st1 rest
      (r.1, evs ++ r.2.1, r.2.2)

/-- The `except Exception` clause of `mvn_connection`: logs, emits
`signal_device_client_disconnected`, and breaks out of the loop. The socket
field is NOT touched here. -/
def except_branch (st : DeviceState) (evs : List Event) (e : PyError) : IterOut :=
  { state := st
    events := evs ++ [Event.logWarning "Disconnecting due to exception",
      Event.deviceClientDisconnected]
    result := IterResult.errorExit e }

/-- Lines 160–171 of the loop body: the activity check followed by the
shutdown branch (`if self.close_socket and len(self.message_queue) == 0`),
which shuts down and closes the socket, sets it to `None` and breaks. -/
def loop_tail (st : DeviceState) (evs : List Event) (checkTime : Int) : IterOut :=
  match activity_check st checkTime with
  | (st1, some e) => except_branch st1 evs e
  | (st1, none) =>
    if st1.close_socket && st1.message_queue.isEmpty then
      { state := { st1 with socket := none }, events := evs,
        result := IterResult.cleanExit }
    else
      { state := st1, events := evs, result := IterResult.nextIter }

/-- Initial state of a `DeviceMVNAnimate` right after `__init__`: empty queue,
no socket, flags cleared, default slate and take. -/
def st0 : DeviceState :=
  { message_queue := []
    socket := none
    close_socket := false
    last_activity := 0
    awaiting_echo_response := false
    status := DeviceStatus.disconnected
    trigger_start := true
    trigger_stop := true
    slate := "slate"
    take := 1
    threads_started := 0 }

/-- One iteration of `mvn_connection`'s `while self.is_connected` loop. If the
queue is non-empty: pop (from the right end), flush stale inbound data, send
(`sendto` may raise), then process each datagram received within the read
timeout (a raise inside `process_message` propagates). If the queue is empty:
sleep 10 ms. Then the activity check and the shutdown branch. Any raised
exception lands in `except_branch`. -/
def mvn_connection_iteration (st : DeviceState) (inp : IterInput) : IterOut :=
  if is_connected st then
    match deque_pop st.message_queue with
    | some (_, q) =>
      let st1 := { st with message_queue := q }
      match inp.sendError with
      | some e => except_branch st1 [] e
      | none =>
        match process_received st1 inp.recvs with
        | (st2, evs, some e) => except_branch st2 evs e
        | (st2, evs, none) => loop_tail st2 evs inp.checkTime
    | none => loop_tail st [] inp.checkTime
  else
    { state := st, events := [], result := IterResult.whileFalse }

/-! ## Helper lemmas -/

/-- Popping the deque whose list is `pend.reverse` removes the right end,
which is the front of the FIFO pending list `pend`. -/
lemma deque_pop_reverse (pend : List String) :
    deque_pop pend.reverse =
      match pend with
      | [] => none
      | m :: rest => some (m, rest.reverse) := by
  cases pend with
  | nil => rfl
  | cons m rest =>
    simp only [deque_pop, List.reverse_cons]
    rw [List.getLast?_concat, List.dropLast_concat]

/-- Simulation: running queue operations on a device state whose queue list is
`pend.reverse` behaves exactly like the FIFO reference queue on `pend`; only
the `message_queue` field changes. -/
lemma queue_run_sim (ops : List QOp) (st : DeviceState) (pend : List String)
    (h : st.message_queue = pend.reverse) :
    queue_run st ops =
      ({ st with message_queue := (fifo_run pend ops).1.reverse },
       (fifo_run pend ops).2) := by
  induction ops generalizing st pend with
  | nil =>
    simp only [queue_run, fifo_run, ← h]
  | cons op ops ih =>
    cases op with
    | push m =>
      simp only [queue_run, fifo_run]
      rw [ih (send_string_to_mvn st m) (pend ++ [m])
        (by simp [send_string_to_mvn, h])]
      simp [send_string_to_mvn]
    | pop =>
      simp only [queue_run, fifo_run, h, deque_pop_reverse]
      cases pend with
      | nil => exact ih st [] h
      | cons m rest =>
        simp only
        rw [ih { st with message_queue := rest.reverse } rest rfl]

/-- With no pop meeting an empty queue, the FIFO reference queue pops the
pending elements followed by the pushed elements in push order, and its final
length is pending + pushes − pops. -/
lemma fifo_run_spec (ops : List QOp) (pend : List String)
    (hv : valid_pops pend ops = true) :
    (fifo_run pend ops).2 = (pend ++ pushesOf ops).take (numPops ops) ∧
    (fifo_run pend ops).1.length =
      pend.length + (pushesOf ops).length - numPops ops := by
  induction ops generalizing pend with
  | nil =>
    simp [fifo_run, pushesOf, numPops]
  | cons op ops ih =>
    cases op with
    | push m =>
      simp only [valid_pops] at hv
      obtain ⟨h1, h2⟩ := ih (pend ++ [m]) hv
      refine ⟨?_, ?_⟩
      · simp only [fifo_run, pushesOf, numPops, h1, List.append_assoc,
          List.singleton_append]
      · simp [fifo_run, pushesOf, numPops, h2]
        omega
    | pop =>
      cases pend with
      | nil => simp [valid_pops] at hv
      | cons m rest =>
        simp only [valid_pops] at hv
        obtain ⟨h1, h2⟩ := ih rest hv
        refine ⟨?_, ?_⟩
        · simp only [fifo_run, numPops, pushesOf, h1, List.cons_append,
            List.take_succ_cons]
        · simp [fifo_run, numPops, pushesOf, h2]
          omega

/-! ## Claim C1 -/

/-- C1 as stated is false: `send_string_to_mvn` pushes with `appendleft`
(left end) while the session loop drains with `pop()` (right end), so after
pushing "a" then "b" the drain returns "a", the OLDEST not-yet-popped
message, not the most recently pushed "b". -/
theorem outbound_queue_pop_is_not_lifo :
    (queue_run st0 [QOp.push "a", QOp.push "b", QOp.pop]).2 = ["a"] ∧
    ("a" : String) ≠ "b" :=
  ⟨rfl, by decide⟩

/-- C1 (amended): for every sequence of pushes (`send_string_to_mvn`) and
pops (the session loop's `message_queue.pop()` drain, which never runs on an
empty queue), the pops return the LEAST recently pushed not-yet-popped
messages — FIFO order, not LIFO — and after N pushes and K pops the queue
length is N − K. -/
theorem outbound_queue_fifo (ops : List QOp) (st : DeviceState)
    (hq : st.message_queue = []) (hv : valid_pops [] ops = true) :
    (queue_run st ops).2 = (pushesOf ops).take (numPops ops) ∧
    (queue_run st ops).1.message_queue.length =
      (pushesOf ops).length - numPops ops := by
  have hsim := queue_run_sim ops st [] (by simpa using hq)
  obtain ⟨h1, h2⟩ := fifo_run_spec ops [] hv
  rw [hsim]
  constructor
  · simpa using h1
  · simpa using h2

/-- Witness for C1's amended theorem at a concrete operation sequence. -/
theorem outbound_queue_fifo_witness :
    (queue_run st0 [QOp.push "a", QOp.push "b", QOp.pop]).2 =
      (pushesOf [QOp.push "a", QOp.push "b", QOp.pop]).take
        (numPops [QOp.push "a", QOp.push "b", QOp.pop]) ∧
    (queue_run st0 [QOp.push "a", QOp.push "b", QOp.pop]).1.message_queue.length =
      (pushesOf [QOp.push "a", QOp.push "b", QOp.pop]).length -
        numPops [QOp.push "a", QOp.push "b", QOp.pop] :=
  outbound_queue_fifo [QOp.push "a", QOp.push "b", QOp.pop] st0 rfl (by decide)

/-! ## Claim C2 -/

/-- C2: contrary to the claim, a well-formed element whose tag is not one of
the four registered response tags makes `process_message` raise `NameError`:
the log statement in the unrecognized-tag branch interpolates `cmd_name`,
which is defined nowhere in the function, so the error is never logged and
the exception propagates to the session loop (whose `except` clause then
disconnects). -/
theorem process_message_unknown_tag_raises (st : DeviceState) (now : Int) (x : Xml)
    (h1 : x.tag ≠ "IdentifyAck") (h2 : x.tag ≠ "StartRecordingAck")
    (h3 : x.tag ≠ "StopRecordingAck") (h4 : x.tag ≠ "CaptureNameAck") :
    process_message st now (Datagram.parsed x) =
      ({ st with last_activity := now }, [], some (PyError.nameError "cmd_name")) := by
  simp [process_message, run_command_response_callback, h1, h2, h3, h4]

/-- Witness for C2's theorem: a concrete datagram with unknown tag `Foo`. -/
theorem process_message_unknown_tag_raises_witness :
    process_message st0 5 (Datagram.parsed (Xml.elem "Foo" [] [])) =
      ({ st0 with last_activity := 5 }, [], some (PyError.nameError "cmd_name")) :=
  process_message_unknown_tag_raises st0 5 (Xml.elem "Foo" [] [])
    (by decide) (by decide) (by decide) (by decide)

/-! ## Claim C3 -/

/-- C3: for every received datagram whose bytes are not a single well-formed
element (`fromstring` raises `ParseError`), `process_message` catches the
failure, logs a malformed-message error, drops the message and returns with
no raised exception and no state change beyond the `last_activity` refresh —
so corrupted input never crashes the session loop. -/
theorem process_message_malformed_caught (st : DeviceState) (now : Int)
    (raw : String) :
    process_message st now (Datagram.malformed raw) =
      ({ st with last_activity := now },
       [Event.logError ("Could not parse MVN message " ++ raw)], none) :=
  rfl

/-! ## Claim C4 -/

/-- C4: contrary to the claim, `set_take` never builds or enqueues a
`CaptureName` message: after assigning `_slate` and `_take` it executes
`state_elem.set("VALUE", value)` where both `state_elem` and `value` are
undefined names, so it raises `NameError` and leaves the outbound queue
unchanged. -/
theorem set_take_raises_and_enqueues_nothing (st : DeviceState)
    (take_name : String) (take_num : Int) :
    set_take st take_name take_num =
      ({ st with slate := take_name, take := take_num },
       some (PyError.nameError "state_elem")) ∧
    (set_take st take_name take_num).1.message_queue = st.message_queue :=
  ⟨rfl, rfl⟩

/-! ## Claim C5 -/

/-- A device state that already holds a socket (connected, READY). -/
def stConn : DeviceState :=
  { st0 with socket := some 7, status := DeviceStatus.ready }

/-- C5 as stated is false: on an already-connected device (`is_connected`),
`connect_listener` is not a no-op — it replaces the held socket handle with a
new one, starts a second session-loop thread, and enqueues a new identify
probe. -/
theorem connect_listener_not_noop :
    is_connected stConn = true ∧
    stConn.socket = some 7 ∧
    (connect_listener stConn 8 100).socket = some 8 ∧
    (connect_listener stConn 8 100).threads_started = stConn.threads_started + 1 ∧
    (connect_listener stConn 8 100).message_queue ≠ stConn.message_queue := by
  refine ⟨rfl, rfl, rfl, rfl, ?_⟩
  decide

/-- C5 (amended): `connect_listener` performs no already-connected check: in
every state it clears `close_socket`, installs the freshly bound socket
handle (replacing any held one), resets `last_activity`, starts another
session-loop thread, and enqueues exactly one `IdentifyReq` probe (leaving
the awaiting flag set). -/
theorem connect_listener_unconditional (st : DeviceState) (sock : Nat) (now : Int) :
    connect_listener st sock now =
      { st with
        close_socket := false
        socket := some sock
        last_activity := now
        threads_started := st.threads_started + 1
        awaiting_echo_response := true
        message_queue := identifyReqMsg :: st.message_queue } :=
  rfl

/-! ## Claim C6 -/

/-- C6: when the elapsed time since last activity exceeds the 1.0 s ping
interval but not the 3.0 s disconnect timeout and no identify probe is
outstanding, the loop's activity check enqueues exactly one `IdentifyReq`
(and sets the awaiting-identify-echo flag, raising nothing); and while the
flag is set, any call to `send_identify_request` changes nothing, so at most
one identify probe is outstanding at a time. -/
theorem identify_probe_at_most_one (st st2 : DeviceState) (now : Int)
    (h1 : st.awaiting_echo_response = false)
    (h2 : ping_interval < now - st.last_activity)
    (h3 : now - st.last_activity ≤ disconnect_timeout)
    (h4 : st2.awaiting_echo_response = true) :
    (activity_check st now).1.message_queue = identifyReqMsg :: st.message_queue ∧
    (activity_check st now).1.awaiting_echo_response = true ∧
    (activity_check st now).2 = none ∧
    send_identify_request st2 = st2 := by
  have hno : ¬ (now - st.last_activity > disconnect_timeout) := not_lt.mpr h3
  simp only [activity_check, gt_iff_lt]
  rw [if_neg hno, if_pos h2]
  refine ⟨?_, ?_, rfl, ?_⟩
  · simp [send_identify_request, h1, send_request_to_mvn, send_string_to_mvn,
      identifyReqMsg]
  · simp [send_identify_request, h1, send_request_to_mvn, send_string_to_mvn]
  · simp [send_identify_request, h4]

/-- A connected state with the awaiting flag clear and last activity at 0. -/
def stPing : DeviceState := { st0 with socket := some 7, last_activity := 0 }

/-- A state with the awaiting flag set (a probe outstanding). -/
def stAwait : DeviceState := { st0 with awaiting_echo_response := true }

/-- Witness for C6's theorem at elapsed time 1.5 s. -/
theorem identify_probe_at_most_one_witness :
    (activity_check stPing 1500).1.message_queue =
      identifyReqMsg :: stPing.message_queue ∧
    (activity_check stPing 1500).1.awaiting_echo_response = true ∧
    (activity_check stPing 1500).2 = none ∧
    send_identify_request stAwait = stAwait :=
  identify_probe_at_most_one stPing stAwait 1500 rfl (by decide) (by decide) rfl

/-! ## Claim C7 -/

/-- `send_identify_request` never touches the socket field. -/
lemma send_identify_request_socket (st : DeviceState) :
    (send_identify_request st).socket = st.socket := by
  simp only [send_identify_request, send_request_to_mvn, send_string_to_mvn]
  split_ifs <;> rfl

/-- `process_message` never touches the socket field. -/
lemma process_message_socket (st : DeviceState) (now : Int) (d : Datagram) :
    (process_message st now d).1.socket = st.socket := by
  cases d with
  | malformed raw => rfl
  | parsed x =>
    simp only [process_message, run_command_response_callback]
    split_ifs <;> rfl

/-- `process_received` never touches the socket field. -/
lemma process_received_socket (l : List (Datagram × Int)) (st : DeviceState) :
    (process_received st l).1.socket = st.socket := by
  induction l generalizing st with
  | nil => rfl
  | cons p rest ih =>
    obtain ⟨d, t⟩ := p
    have hs := process_message_socket st t d
    rcases hp : process_message st t d with ⟨st1, evs, err⟩
    rw [hp] at hs
    cases err with
    | some e => simp only [process_received, hp]; exact hs
    | none =>
      simp only [process_received, hp]
      rw [ih st1]
      exact hs

/-- `activity_check` never touches the socket field. -/
lemma activity_check_socket (st : DeviceState) (now : Int) :
    (activity_check st now).1.socket = st.socket := by
  simp only [activity_check]
  split_ifs <;> simp [send_identify_request_socket]

/-- Case analysis of `loop_tail`: only the clean-shutdown branch clears the
socket; the other two branches keep it, and the error branch emits the
disconnect notification. -/
lemma loop_tail_shape (st : DeviceState) (evs : List Event) (t : Int) :
    ((loop_tail st evs t).result = IterResult.cleanExit ∧
     (loop_tail st evs t).state.socket = none) ∨
    ((loop_tail st evs t).result ≠ IterResult.cleanExit ∧
     (loop_tail st evs t).state.socket = st.socket ∧
     (∀ e, (loop_tail st evs t).result = IterResult.errorExit e →
       Event.deviceClientDisconnected ∈ (loop_tail st evs t).events)) := by
  have hs := activity_check_socket st t
  rcases hac : activity_check st t with ⟨st1, err⟩
  rw [hac] at hs
  cases err with
  | some e =>
    right
    simp only [loop_tail, hac, except_branch]
    refine ⟨by simp, hs, ?_⟩
    intro e' _
    simp
  | none =>
    simp only [loop_tail, hac]
    by_cases hc : st1.close_socket && st1.message_queue.isEmpty
    · left
      rw [if_pos hc]
      exact ⟨rfl, rfl⟩
    · right
      rw [if_neg hc]
      exact ⟨by simp, hs, by intro e' h; simp at h⟩

/-- Case analysis of one full loop iteration: only the clean-shutdown exit
clears the socket; every other outcome — including the error exit that
notifies the host — leaves the socket field exactly as it was. -/
lemma mvn_connection_iteration_shape (st : DeviceState) (inp : IterInput) :
    ((mvn_connection_iteration st inp).result = IterResult.cleanExit ∧
     (mvn_connection_iteration st inp).state.socket = none) ∨
    ((mvn_connection_iteration st inp).result ≠ IterResult.cleanExit ∧
     (mvn_connection_iteration st inp).state.socket = st.socket ∧
     (∀ e, (mvn_connection_iteration st inp).result = IterResult.errorExit e →
       Event.deviceClientDisconnected ∈ (mvn_connection_iteration st inp).events)) := by
  by_cases hcon : is_connected st
  · rcases hq : deque_pop st.message_queue with _ | ⟨m, q⟩
    · simp only [mvn_connection_iteration, hcon, if_true, hq]
      exact loop_tail_shape st [] inp.checkTime
    · rcases hse : inp.sendError with _ | e
      · have hs := process_received_socket inp.recvs { st with message_queue := q }
        rcases hpr : process_received { st with message_queue := q } inp.recvs with
          ⟨st2, evs, err2⟩
        rw [hpr] at hs
        cases err2 with
        | some e2 =>
          right
          simp only [mvn_connection_iteration, hcon, if_true, hq, hse, hpr,
            except_branch]
          exact ⟨by simp, hs, by intro e' _; simp⟩
        | none =>
          simp only [mvn_connection_iteration, hcon, if_true, hq, hse, hpr]
          have := loop_tail_shape st2 evs inp.checkTime
          rcases this with ⟨h1, h2⟩ | ⟨h1, h2, h3⟩
          · left; exact ⟨h1, h2⟩
          · right; exact ⟨h1, h2.trans hs, h3⟩
      · right
        simp only [mvn_connection_iteration, hcon, if_true, hq, hse, except_branch]
        exact ⟨by simp, by simp, by intro e' _; simp⟩
  · right
    simp only [mvn_connection_iteration, hcon, if_false]
    exact ⟨by simp, by simp, by intro e' h; simp at h⟩

/-- Iteration environment with nothing received and the activity check at
3.5 s after last activity: past the disconnect timeout. -/
def inpErr : IterInput := { sendError := none, recvs := [], checkTime := 3500 }

/-- C7 as stated is false on the error exit: when the session loop exits on
the inactivity timeout and notifies the host of disconnection, the `except`
clause never clears `self.socket`, so the handle is still held (and
`is_connected` still true) although the device is disconnected. -/
theorem socket_retained_after_error_exit :
    Event.deviceClientDisconnected ∈ (mvn_connection_iteration stConn inpErr).events ∧
    (mvn_connection_iteration stConn inpErr).result =
      IterResult.errorExit PyError.connectionTimeout ∧
    (mvn_connection_iteration stConn inpErr).state.socket = some 7 ∧
    is_connected (mvn_connection_iteration stConn inpErr).state = true := by
  decide

/-- C7 (amended): `is_connected` is true iff a socket handle is held (by
definition), and the clean shutdown exit of the session loop clears the
handle; but on the error exit (inactivity timeout or transport error), after
the host has been notified of disconnection, the socket handle is left
exactly as it was — still held — so the handle-iff-connected reading of the
invariant fails in that reachable state. -/
theorem socket_held_iff_connected_except_error_exit (st : DeviceState)
    (inp : IterInput) :
    (is_connected st = st.socket.isSome) ∧
    ((mvn_connection_iteration st inp).result = IterResult.cleanExit →
      (mvn_connection_iteration st inp).state.socket = none) ∧
    (∀ e, (mvn_connection_iteration st inp).result = IterResult.errorExit e →
      (mvn_connection_iteration st inp).state.socket = st.socket ∧
      Event.deviceClientDisconnected ∈ (mvn_connection_iteration st inp).events) := by
  refine ⟨rfl, ?_, ?_⟩
  · intro h
    rcases mvn_connection_iteration_shape st inp with ⟨_, h2⟩ | ⟨h1, _, _⟩
    · exact h2
    · exact absurd h h1
  · intro e he
    rcases mvn_connection_iteration_shape st inp with ⟨h1, _⟩ | ⟨_, h2, h3⟩
    · rw [h1] at he; simp at he
    · exact ⟨h2, h3 e he⟩

/-- Witness for C7's amended theorem on the concrete timeout run. -/
theorem socket_held_iff_connected_except_error_exit_witness :
    (mvn_connection_iteration stConn inpErr).state.socket = stConn.socket ∧
    Event.deviceClientDisconnected ∈ (mvn_connection_iteration stConn inpErr).events :=
  (socket_held_iff_connected_except_error_exit stConn inpErr).2.2
    PyError.connectionTimeout (by decide)

/-! ## Claim C8 -/

/-- C8: `timecode` always returns the constant string `00:00:00:00`, and both
recording confirmation callbacks pass exactly that constant to the host
(`record_start_confirm`, and `record_stop_confirm` with no paths). -/
theorem timecode_constant_in_confirmations :
    timecode = "00:00:00:00" ∧
    (∀ (st : DeviceState) (r : Xml),
      on_mvn_recording_started st r =
        (st, [Event.recordStartConfirm "00:00:00:00"])) ∧
    (∀ (st : DeviceState) (r : Xml),
      on_mvn_recording_stopped st r =
        (st, [Event.recordStopConfirm "00:00:00:00" none])) :=
  ⟨rfl, fun _ _ => rfl, fun _ _ => rfl⟩

/-! ## Claim C9 -/

/-- C9: two calls to `record_start` agreeing on slate and description but
differing in the take argument have identical effect, and when the message is
enqueued at all its attributes are exactly SessionName = slate and
Description = description — the take parameter never reaches the wire. -/
theorem record_start_ignores_take (st : DeviceState) (slate : String)
    (t1 t2 : Int) (description : String) :
    record_start st slate t1 description = record_start st slate t2 description ∧
    (is_disconnected st = false → st.trigger_start = true →
      record_start st slate t1 description = send_string_to_mvn st
        (tostring (Xml.elem "StartRecordingReq"
          [("SessionName", slate), ("Description", description)] []))) := by
  refine ⟨rfl, ?_⟩
  intro h1 h2
  simp [record_start, send_request_to_mvn, h1, h2]

/-- A READY (not disconnected) device state with triggers enabled. -/
def stReady : DeviceState := { st0 with status := DeviceStatus.ready }

/-- Witness for C9's theorem at concrete slate, takes 3 and 4, description. -/
theorem record_start_ignores_take_witness :
    record_start stReady "sceneA" 3 "desc" =
      record_start stReady "sceneA" 4 "desc" ∧
    record_start stReady "sceneA" 3 "desc" = send_string_to_mvn stReady
      (tostring (Xml.elem "StartRecordingReq"
        [("SessionName", "sceneA"), ("Description", "desc")] [])) :=
  ⟨(record_start_ignores_take stReady "sceneA" 3 4 "desc").1,
   (record_start_ignores_take stReady "sceneA" 3 4 "desc").2 rfl rfl⟩

/-! ## Claim C10 -/

/-- C10: `process_message` sets `last_activity` to the current time before
attempting to parse, so every inbound datagram — well-formed, unrecognized,
or malformed garbage — resets the 3.0 s inactivity disconnect timer. -/
theorem process_message_always_updates_last_activity (st : DeviceState)
    (now : Int) (d : Datagram) :
    (process_message st now d).1.last_activity = now := by
  cases d with
  | malformed raw => rfl
  | parsed x =>
    simp only [process_message, run_command_response_callback]
    split_ifs <;> rfl
